import Mathlib

/-!
Shallow embedding of the health365 clinical-records backend: the routers in
`src/app/routers/patients.py`, `src/app/routers/doctors.py` and
`src/app/routers/websocket.py`, over a relational store with tables for User,
Patient, PatientDoctor and MedicalRecord, plus the process-wide notification
registry `user_sockets`. Handlers are embedded as pure functions from the store
(and registry) to an HTTP-level outcome and the successor state; a raised
`HTTPException(status, detail)` reaching the framework boundary is `HResp.err
status detail`. Model files and security helpers that are not part of the
router sources are reconstructed from the specification and marked as such.
-/

/-- Modelled from the spec: the `User` model (app/database/models/user.py) is not
part of the router sources; section 3 fixes the role enumeration as DOCTOR,
PATIENT, other. -/
inductive UserRole where
  | DOCTOR
  | PATIENT
  | OTHER
deriving DecidableEq, Repr

/-- Modelled from the spec: a `User` row carries `id (unique), email, role`
(section 3); credential material is out of scope. -/
structure User where
  id : Nat
  email : String
  role : UserRole
deriving DecidableEq, Repr

/-- Modelled from the spec: the `Gender` enumeration (app/database/models/patient.py)
is not part of the router sources; section 3 fixes only a fixed enumerated set of
member names. Members MALE and FEMALE are chosen, consistent with the section 8
scenario that accepts the submitted gender "Male". -/
inductive Gender where
  | MALE
  | FEMALE
deriving DecidableEq, Repr

/-- Member name of a `Gender` value, as `member.name` in Python. -/
def Gender.name : Gender → String
  | .MALE => "MALE"
  | .FEMALE => "FEMALE"

/-- Iteration order of the `Gender` enumeration (`for member in Gender`). -/
def Gender.members : List Gender := [.MALE, .FEMALE]

/-- Modelled from the spec: the `Patient` model fields (model file not part of the
router sources): `id (unique), demographic fields including gender, free-form
fields` (section 3); `name` and `address` stand for the free-form fields. -/
structure Patient where
  id : Nat
  name : String
  gender : String
  address : String
deriving DecidableEq, Repr

/-- Modelled from the spec: `PatientIn_Pydantic`, the inbound patient payload
(model file not part of the router sources). Update performs a partial merge of
the supplied fields (section 4.3), so every field is optional; `none` models a
field absent from the request (pydantic `exclude_unset`). -/
structure PatientIn where
  name : Option String := none
  gender : Option String := none
  address : Option String := none
deriving DecidableEq, Repr

/-- Join row of the doctor/patient many-to-many relation, with its own primary key. -/
structure PatientDoctor where
  id : Nat
  patient_id : Nat
  doctor_id : Nat
deriving DecidableEq, Repr

/-- Modelled from the spec: a `MedicalRecord` carries `id, patient reference,
doctor reference (the creating doctor), clinical fields` (section 3); `diagnosis`
and `treatment` stand for the clinical fields. -/
structure MedicalRecord where
  id : Nat
  patient_id : Nat
  doctor_id : Nat
  diagnosis : String
  treatment : String
deriving DecidableEq, Repr

/-- Modelled from the spec: `MedicalRecordIn_Pydantic`, the inbound record payload;
optional fields model pydantic `exclude_unset` partial updates (section 4.2). -/
structure MedicalRecordIn where
  diagnosis : Option String := none
  treatment : Option String := none
deriving DecidableEq, Repr

/-- Relational store state: the four tables, plus auto-increment counters for the
primary keys the routers create. -/
structure DB where
  users : List User
  patients : List Patient
  patientDoctors : List PatientDoctor
  medicalRecords : List MedicalRecord
  nextPatientId : Nat
  nextPairId : Nat
  nextRecordId : Nat
deriving DecidableEq, Repr

/-- HTTP-level outcome of a handler: `ok` is a success payload, `err status detail`
an `HTTPException(status_code, detail)` reaching the framework boundary. -/
inductive HResp (α : Type) where
  | ok (payload : α)
  | err (status : Nat) (detail : String)
deriving DecidableEq, Repr

/-- Status code observed by the client (success renders as 200 here). -/
def HResp.statusCode {α : Type} : HResp α → Nat
  | .ok _ => 200
  | .err s _ => s

/-- Embeds Python `str.lower()` (character-wise lowercasing; all strings this code
compares are ASCII member names). -/
def lowerStr (s : String) : String := String.mk (s.data.map Char.toLower)

/-- Whitespace as recognised by Python `str.strip()` with no arguments, restricted
to the ASCII whitespace characters relevant here. -/
def wsChar (c : Char) : Bool := c == ' ' || c == '\t' || c == '\n' || c == '\r'

/-- Embeds Python `str.strip()`: removes leading and trailing whitespace. -/
def trimStr (s : String) : String :=
  String.mk (((s.data.dropWhile wsChar).reverse.dropWhile wsChar).reverse)

/-- Messages pushed so far over one live WebSocket connection, in `send_text` order. -/
abbrev Conn := List String

/-- The process-wide `user_sockets` dict of websocket.py line 13: user id to
connection, at most one entry per id. -/
abbrev Registry := List (Nat × Conn)

/-- Dictionary membership and read, `user_id in user_sockets` / `user_sockets[user_id]`. -/
def regLookup : Registry → Nat → Option Conn
  | [], _ => none
  | (k, c) :: t, uid => if k = uid then some c else regLookup t uid

/-- Dictionary write `user_sockets[uid] = conn`: overwrites any prior entry for `uid`. -/
def regSet : Registry → Nat → Conn → Registry
  | [], uid, c => [(uid, c)]
  | (k, c') :: t, uid, c => if k = uid then (uid, c) :: t else (k, c') :: regSet t uid c

/-- Embeds `Patient.get(id=pid)`; `none` is tortoise `DoesNotExist`. Primary keys
are unique in the store, so the first match is the row. -/
def Patient.get (db : DB) (pid : Nat) : Option Patient :=
  db.patients.find? (fun p => p.id == pid)

/-- Embeds `User.get(id=uid, role=UserRole.DOCTOR)`. -/
def User.getDoctor (db : DB) (uid : Nat) : Option User :=
  db.users.find? (fun u => u.id == uid && u.role == UserRole.DOCTOR)

/-- Embeds `PatientDoctor.filter(patient_id=pid, doctor_id=did)`. -/
def PatientDoctor.filterPair (db : DB) (pid did : Nat) : List PatientDoctor :=
  db.patientDoctors.filter (fun r => r.patient_id == pid && r.doctor_id == did)

/-- Embeds websocket.py lines 18-25, `send_notification_to_user`: if a connection is
registered for `uid` the message is pushed to it, otherwise nothing happens and no
error is raised. -/
def send_notification_to_user (reg : Registry) (uid : Nat) (message : String) : Registry :=
  match regLookup reg uid with
  | none => reg
  | some c => regSet reg uid (c ++ [message])

/-- Embeds patients.py lines 34-58, `create_patient`. The gender check strips
surrounding whitespace and lowercases before comparing with the lowercased member
names, then the row is stored with the gender exactly as submitted. An absent
gender makes `patient.gender.strip()` fail on `None`, an uncaught error surfacing
as 500; `ValidationError` (500) has no counterpart here because the embedded store
accepts any field values. -/
def create_patient (db : DB) (patient : PatientIn) : HResp Patient × DB :=
  match patient.gender with
  | none => (.err 500 "Internal Server Error", db)
  | some g =>
    if (Gender.members.map (fun m => lowerStr m.name)).contains (lowerStr (trimStr g)) then
      (.ok { id := db.nextPatientId, name := patient.name.getD "",
             gender := g, address := patient.address.getD "" },
       { db with
           patients := db.patients ++
             [{ id := db.nextPatientId, name := patient.name.getD "",
                gender := g, address := patient.address.getD "" }],
           nextPatientId := db.nextPatientId + 1 })
    else
      (.err 400 "Invalid gender ", db)

/-- Partial merge `update_from_dict(patient.dict(exclude_unset=True))` on a Patient:
only the fields present in the request change, every omitted field keeps its prior
value. -/
def Patient.mergeIn (p : Patient) (d : PatientIn) : Patient :=
  { p with name := d.name.getD p.name, gender := d.gender.getD p.gender,
           address := d.address.getD p.address }

/-- Embeds patients.py lines 82-102, `update_patient`: fetch by id (404 if absent),
merge the fields present in the request, persist the merged row (the merge-update
of the store; persistence engine internals are out of scope per spec section 1). -/
def update_patient (db : DB) (pid : Nat) (patient : PatientIn) : HResp Patient × DB :=
  match Patient.get db pid with
  | none => (.err 404 "Patient not found", db)
  | some p =>
    (.ok (p.mergeIn patient),
     { db with patients := db.patients.map (fun q => if q.id == pid then q.mergeIn patient else q) })

/-- Embeds patients.py lines 105-124, `delete_patient`: fetch by id, delete the row;
the blanket `except` maps any failure (only `DoesNotExist` can occur) to 404. No
cascade: PatientDoctor and MedicalRecord rows referencing the patient remain. -/
def delete_patient (db : DB) (pid : Nat) : HResp String × DB :=
  match Patient.get db pid with
  | none => (.err 404 "Patient not found", db)
  | some p =>
    (.ok "Patient deleted successfully",
     { db with patients := db.patients.filter (fun q => q.id != p.id) })

/-- Outcome of the assignment endpoint: response, store state, registry state. -/
structure AssignOut where
  resp : HResp PatientDoctor
  db : DB
  reg : Registry
deriving DecidableEq, Repr

/-- Embeds patients.py lines 127-156, `assign_doctor_to_patient`. Every exception
raised in the body - including the `HTTPException(400, "Doctor is already
assigned to this patient")` raised on a duplicate pair - is caught by the blanket
`except Exception` and re-raised as 404 with `str(e)` as detail (Starlette renders
an HTTPException as "status_code: detail"), so the duplicate case reaches the
client as 404, not 400. On success the doctor row is fetched, the join row is
created, and one notification message is pushed to the registered connection of
the doctor, if any. -/
def assign_doctor_to_patient (db : DB) (reg : Registry) (patient_id doctor_id : Nat) : AssignOut :=
  match Patient.get db patient_id with
  | none => ⟨.err 404 "Object does not exist", db, reg⟩
  | some patient =>
    if PatientDoctor.filterPair db patient_id doctor_id ≠ [] then
      ⟨.err 404 "400: Doctor is already assigned to this patient", db, reg⟩
    else
      match User.getDoctor db doctor_id with
      | none => ⟨.err 404 "Object does not exist", db, reg⟩
      | some u =>
        ⟨.ok { id := db.nextPairId, patient_id := patient.id, doctor_id := doctor_id },
         { db with
             patientDoctors := db.patientDoctors ++
               [{ id := db.nextPairId, patient_id := patient.id, doctor_id := doctor_id }],
             nextPairId := db.nextPairId + 1 },
         send_notification_to_user reg doctor_id ("New patient assigned from: " ++ u.email)⟩

/-- Embeds patients.py lines 160-180, `get_assigned_doctors`: reads only the join
table, then fetches the users whose ids occur there (`id__in`). No lookup of the
patient itself happens and neither query can raise `DoesNotExist`, so the
`except DoesNotExist` 404 branch is unreachable. -/
def get_assigned_doctors (db : DB) (patient_id : Nat) : HResp (List User) :=
  .ok (db.users.filter (fun u =>
    ((db.patientDoctors.filter (fun r => r.patient_id == patient_id)).map
      (fun r => r.doctor_id)).contains u.id))

/-- Embeds doctors.py lines 48-67, `get_assigned_patients`; same shape as
`get_assigned_doctors`, from the doctor side. -/
def get_assigned_patients (db : DB) (doctor_id : Nat) : HResp (List Patient) :=
  .ok (db.patients.filter (fun p =>
    ((db.patientDoctors.filter (fun r => r.doctor_id == doctor_id)).map
      (fun r => r.patient_id)).contains p.id))

/-- Embeds patients.py lines 183-203, `unassign_doctor_from_patient`:
`PatientDoctor.get` raises `DoesNotExist` (404) on no match and
`MultipleObjectsReturned` (uncaught, surfacing as 500) on several; on exactly one
match that row is deleted by primary key. -/
def unassign_doctor_from_patient (db : DB) (patient_id doctor_id : Nat) : HResp String × DB :=
  match PatientDoctor.filterPair db patient_id doctor_id with
  | [] => (.err 404 "They were never assigned", db)
  | [row] =>
    (.ok "Doctor unassigned successfully",
     { db with patientDoctors := db.patientDoctors.filter (fun q => q.id != row.id) })
  | _ => (.err 500 "Internal Server Error", db)

/-- Result of the shared access check of the four medical-record handlers
(patients.py lines 224-228, 255-258, 289-292, 322-325). -/
inductive CheckRes where
  | passed (doctor : User) (patient : Patient)
  | denied
  | multi
deriving DecidableEq, Repr

/-- Embeds the three lookups of the access check: `User.get(id=user.id,
role=DOCTOR)`, `Patient.get(id=patient_id)`, `PatientDoctor.get(patient=patient,
doctor=doctor)`. Any `DoesNotExist` gives `denied` (the inner `except DoesNotExist`
of each handler, surfaced as 404); several join rows for the pair would raise
`MultipleObjectsReturned` (`multi`, uncaught, surfacing as 500). The check runs
against the current store on every call - nothing is cached. -/
def medCheck (db : DB) (uid patient_id : Nat) : CheckRes :=
  match User.getDoctor db uid with
  | none => .denied
  | some doctor =>
    match Patient.get db patient_id with
    | none => .denied
    | some patient =>
      match PatientDoctor.filterPair db patient.id doctor.id with
      | [] => .denied
      | [_] => .passed doctor patient
      | _ => .multi

/-- Modelled from the spec: `has_permission(UserRole.DOCTOR)`
(app/helpers/security.py, not part of the router sources) guards only the GET
medical-information route. Spec section 4.2 step 1: the identity must resolve to a
User with role DOCTOR, "fail Forbidden (surfaced as not-found for privacy)", and
the section 6 table lists 404 as the failure status of that route. -/
def has_permission_doctor (db : DB) (uid : Nat) : Bool :=
  (User.getDoctor db uid).isSome

/-- Embeds patients.py lines 206-233, `get_patient_medical_information`, including
the modelled DOCTOR role gate of the route. -/
def get_patient_medical_information (db : DB) (uid patient_id : Nat) : HResp (List MedicalRecord) :=
  if has_permission_doctor db uid = false then
    .err 404 "Not authorized"
  else
    match medCheck db uid patient_id with
    | .denied => .err 404 "You have no permission to see this patient information"
    | .multi => .err 500 "Internal Server Error"
    | .passed _ patient => .ok (db.medicalRecords.filter (fun r => r.patient_id == patient.id))

/-- Embeds patients.py lines 236-266, `create_medical_record`: after the access
check the record is created with the fetched patient and acting doctor; the inner
404 `HTTPException` passes through the outer `except DoesNotExist` unchanged. -/
def create_medical_record (db : DB) (uid patient_id : Nat) (medical_record : MedicalRecordIn) :
    HResp MedicalRecord × DB :=
  match medCheck db uid patient_id with
  | .denied => (.err 404 "You have no permission to create medical record for this patient", db)
  | .multi => (.err 500 "Internal Server Error", db)
  | .passed doctor patient =>
    (.ok { id := db.nextRecordId, patient_id := patient.id, doctor_id := doctor.id,
           diagnosis := medical_record.diagnosis.getD "",
           treatment := medical_record.treatment.getD "" },
     { db with
         medicalRecords := db.medicalRecords ++
           [{ id := db.nextRecordId, patient_id := patient.id, doctor_id := doctor.id,
              diagnosis := medical_record.diagnosis.getD "",
              treatment := medical_record.treatment.getD "" }],
         nextRecordId := db.nextRecordId + 1 })

/-- Partial merge on a MedicalRecord, as `update_from_dict` with `exclude_unset`. -/
def MedicalRecord.mergeIn (r : MedicalRecord) (d : MedicalRecordIn) : MedicalRecord :=
  { r with diagnosis := d.diagnosis.getD r.diagnosis, treatment := d.treatment.getD r.treatment }

/-- Embeds patients.py lines 269-300, `update_medical_record`: access check, then
`MedicalRecord.get(id=record_id, patient=patient)` (404 if absent), then partial
merge of the fields present in the request. -/
def update_medical_record (db : DB) (uid patient_id record_id : Nat)
    (medical_record : MedicalRecordIn) : HResp MedicalRecord × DB :=
  match medCheck db uid patient_id with
  | .denied => (.err 404 "You have no permission to update medical record for this patient", db)
  | .multi => (.err 500 "Internal Server Error", db)
  | .passed _ patient =>
    match db.medicalRecords.find? (fun r => r.id == record_id && r.patient_id == patient.id) with
    | none => (.err 404 "Patient or medical record not found", db)
    | some r =>
      (.ok (r.mergeIn medical_record),
       { db with medicalRecords := (db.medicalRecords.map
           (fun q => if q.id == record_id && q.patient_id == patient.id
                     then q.mergeIn medical_record else q)) })

/-- Embeds patients.py lines 303-333, `delete_medical_record`: access check, fetch
of the record by id and patient, delete by primary key. -/
def delete_medical_record (db : DB) (uid patient_id record_id : Nat) : HResp String × DB :=
  match medCheck db uid patient_id with
  | .denied => (.err 404 "You have no permission to delete medical record for this patient", db)
  | .multi => (.err 500 "Internal Server Error", db)
  | .passed _ patient =>
    match db.medicalRecords.find? (fun r => r.id == record_id && r.patient_id == patient.id) with
    | none => (.err 404 "Patient or medical record not found", db)
    | some r =>
      (.ok "Medical record deleted successfully",
       { db with medicalRecords := db.medicalRecords.filter (fun q => q.id != r.id) })

/-- Observable action of the WebSocket handshake, listed in chronological order. -/
inductive WsEffect where
  | close
  | register (uid : Nat)
  | accept
deriving DecidableEq, Repr

/-- Embeds websocket.py lines 28-43, `websocket_endpoint`, up to the echo loop.
The token validator `verify_token` (app/helpers/security.py, not part of the
router sources) is modelled from the spec as an external collaborator, abstracted
to the id claim it yields; `none` also covers a claims dict without an id, for
which `User.get_or_none(id=None)` finds nothing. The effect list transcribes the
source line order: on success the registry write (line 39) happens before
`accept()` (line 40). -/
def websocket_endpoint (db : DB) (reg : Registry) (header : Option String)
    (verify_token : String → Option Nat) : Registry × List WsEffect :=
  match header with
  | none => (reg, [.close])
  | some tok =>
    match (verify_token tok).bind (fun uid => db.users.find? (fun u => u.id == uid)) with
    | none => (reg, [.close])
    | some u => (regSet reg u.id [], [.register u.id, .accept])

/-- One state-changing request to the embedded routers (read-only routes do not
change state). -/
inductive Op where
  | opCreatePatient (p : PatientIn)
  | opUpdatePatient (pid : Nat) (p : PatientIn)
  | opDeletePatient (pid : Nat)
  | opAssign (pid did : Nat)
  | opUnassign (pid did : Nat)
  | opCreateRecord (uid pid : Nat) (m : MedicalRecordIn)
  | opUpdateRecord (uid pid rid : Nat) (m : MedicalRecordIn)
  | opDeleteRecord (uid pid rid : Nat)

/-- Store plus notification registry. -/
structure Sys where
  db : DB
  reg : Registry
deriving DecidableEq, Repr

/-- State transition of one request. -/
def step (op : Op) (s : Sys) : Sys :=
  match op with
  | .opCreatePatient p => { s with db := (create_patient s.db p).2 }
  | .opUpdatePatient pid p => { s with db := (update_patient s.db pid p).2 }
  | .opDeletePatient pid => { s with db := (delete_patient s.db pid).2 }
  | .opAssign pid did =>
    { db := (assign_doctor_to_patient s.db s.reg pid did).db,
      reg := (assign_doctor_to_patient s.db s.reg pid did).reg }
  | .opUnassign pid did => { s with db := (unassign_doctor_from_patient s.db pid did).2 }
  | .opCreateRecord uid pid m => { s with db := (create_medical_record s.db uid pid m).2 }
  | .opUpdateRecord uid pid rid m => { s with db := (update_medical_record s.db uid pid rid m).2 }
  | .opDeleteRecord uid pid rid => { s with db := (delete_medical_record s.db uid pid rid).2 }

/-- Invariant: at most one PatientDoctor row per (patient, doctor) pair. -/
def pairUnique (db : DB) : Prop :=
  List.Pairwise (fun a b => ¬(a.patient_id = b.patient_id ∧ a.doctor_id = b.doctor_id))
    db.patientDoctors

/-- Case-insensitive membership of a gender string among the Gender member names -
the validation predicate the claims speak about. -/
def genderMatches (g : String) : Bool :=
  (Gender.members.map (fun m => lowerStr m.name)).contains (lowerStr g)

/-- Fetching a patient by id returns a row with exactly that id. -/
theorem Patient.get_id {db : DB} {pid : Nat} {p : Patient}
    (h : Patient.get db pid = some p) : p.id = pid := by
  unfold Patient.get at h
  have h2 := List.find?_some h
  simpa using h2

/-- Fetching a doctor by id returns a row with that id and role DOCTOR. -/
theorem User.getDoctor_spec {db : DB} {uid : Nat} {u : User}
    (h : User.getDoctor db uid = some u) : u.id = uid ∧ u.role = UserRole.DOCTOR := by
  unfold User.getDoctor at h
  have h2 := List.find?_some h
  simpa using h2

/-- The access check is denied when the acting id resolves to no DOCTOR row. -/
theorem medCheck_denied_of_noDoctor {db : DB} {uid pid : Nat}
    (h : User.getDoctor db uid = none) : medCheck db uid pid = .denied := by
  unfold medCheck
  rw [h]

/-- The access check is denied when no join row links the pair (the doctor and
patient lookups resolve ids exactly, so the join lookup is on the given ids). -/
theorem medCheck_denied_of_noPair {db : DB} {uid pid : Nat}
    (h : PatientDoctor.filterPair db pid uid = []) : medCheck db uid pid = .denied := by
  unfold medCheck
  cases hu : User.getDoctor db uid with
  | none => rfl
  | some u =>
    cases hp : Patient.get db pid with
    | none => rfl
    | some p =>
      have hui := (User.getDoctor_spec hu).1
      have hpi := Patient.get_id hp
      dsimp only
      rw [hpi, hui, h]

/-- Shared helper: whenever the acting identity is not a DOCTOR row or no join row
links it to the target patient, each of the four medical-record handlers answers
with status 404. -/
theorem medOps404 (db : DB) (uid pid rid : Nat) (m : MedicalRecordIn)
    (h : User.getDoctor db uid = none ∨ PatientDoctor.filterPair db pid uid = []) :
    (get_patient_medical_information db uid pid).statusCode = 404 ∧
    (create_medical_record db uid pid m).1.statusCode = 404 ∧
    (update_medical_record db uid pid rid m).1.statusCode = 404 ∧
    (delete_medical_record db uid pid rid).1.statusCode = 404 := by
  have hd : medCheck db uid pid = .denied := by
    rcases h with h | h
    · exact medCheck_denied_of_noDoctor h
    · exact medCheck_denied_of_noPair h
  unfold get_patient_medical_information create_medical_record
    update_medical_record delete_medical_record
  rw [hd]
  by_cases hg : has_permission_doctor db uid = false <;>
    simp [hg, HResp.statusCode]

/-- Empty store. -/
def dbEmpty : DB :=
  { users := [], patients := [], patientDoctors := [], medicalRecords := [],
    nextPatientId := 1, nextPairId := 1, nextRecordId := 1 }

/-- Store with patient 1, doctor 5, and the pair (1, 5) already assigned. -/
def dbDup : DB :=
  { users := [{ id := 5, email := "doc@example.com", role := .DOCTOR }],
    patients := [{ id := 1, name := "Alice", gender := "Male", address := "" }],
    patientDoctors := [{ id := 1, patient_id := 1, doctor_id := 5 }],
    medicalRecords := [], nextPatientId := 2, nextPairId := 2, nextRecordId := 1 }

/-- C1: with patient 1 and doctor 5 existing and the pair (1, 5) already assigned,
a second assignment call reaches the client with status 404 - the handler raises
the intended 400 Conflict but its blanket exception handler re-raises it as 404 -
contradicting the claimed 400 duplicate status; a call naming a missing patient
yields 404 as claimed. -/
theorem C1_duplicate_assignment_yields_404_not_400 :
    PatientDoctor.filterPair dbDup 1 5 ≠ [] ∧
    (assign_doctor_to_patient dbDup [] 1 5).resp.statusCode = 404 ∧
    ¬(assign_doctor_to_patient dbDup [] 1 5).resp.statusCode = 400 ∧
    (assign_doctor_to_patient dbDup [] 99 5).resp.statusCode = 404 := by decide

/-- C4 counterexample: the submitted gender " male" does not case-insensitively
match any Gender member name, yet creation succeeds (the handler strips the
surrounding whitespace before matching) and stores the gender exactly as
submitted, refuting the claimed BadRequest. -/
theorem C4_counterexample_whitespace_gender_accepted :
    (Gender.members.all (fun m => !(lowerStr m.name == lowerStr " male"))) = true ∧
    (create_patient dbEmpty { gender := some " male" }).1 =
      .ok { id := 1, name := "", gender := " male", address := "" } := by decide

/-- C4 (amended): creation fails with BadRequest 400 and leaves the store unchanged
exactly when the submitted gender, after stripping surrounding whitespace, does not
case-insensitively match a Gender member name; when the stripped form does match
(in particular for any case-variant of a member name) creation succeeds and the
stored patient carries the gender exactly as submitted. -/
theorem C4_gender_validation (db : DB) (pin : PatientIn) (g : String)
    (hg : pin.gender = some g) :
    (genderMatches (trimStr g) = false →
      (create_patient db pin).1 = .err 400 "Invalid gender " ∧
      (create_patient db pin).2 = db) ∧
    (genderMatches (trimStr g) = true →
      (create_patient db pin).1 =
        .ok { id := db.nextPatientId, name := pin.name.getD "", gender := g,
              address := pin.address.getD "" } ∧
      (create_patient db pin).2.patients =
        db.patients ++ [{ id := db.nextPatientId, name := pin.name.getD "", gender := g,
                          address := pin.address.getD "" }]) := by
  constructor <;> intro h <;> simp only [genderMatches] at h <;>
    unfold create_patient <;> rw [hg] <;> dsimp only <;> rw [h] <;> simp

/-- C4 witness: the amended validation applied at the concrete submitted gender
"MaLe", a case-variant of the member name MALE. -/
theorem C4_gender_validation_witness :
    genderMatches (trimStr "MaLe") = true ∧
    ((create_patient dbEmpty { gender := some "MaLe" }).1 =
      .ok { id := 1, name := "", gender := "MaLe", address := "" } ∧
     (create_patient dbEmpty { gender := some "MaLe" }).2.patients =
      dbEmpty.patients ++ [{ id := 1, name := "", gender := "MaLe", address := "" }]) :=
  ⟨by decide, (C4_gender_validation dbEmpty { gender := some "MaLe" } "MaLe" rfl).2 (by decide)⟩

/-- Store for the stale-join-row scenario: doctor 5 and patient 1 exist, nothing
assigned yet. -/
def dbC9 : DB :=
  { users := [{ id := 5, email := "d@x", role := .DOCTOR }],
    patients := [{ id := 1, name := "A", gender := "Male", address := "" }],
    patientDoctors := [], medicalRecords := [],
    nextPatientId := 2, nextPairId := 1, nextRecordId := 1 }

/-- C9 counterexample: in the reachable state obtained by assigning doctor 5 to
patient 1 and then deleting patient 1 (no cascade on delete), id 1 has no Patient
row, yet listing its assigned doctors succeeds with a non-empty list instead of
the empty list the claim requires. -/
theorem C9_counterexample_stale_join_rows :
    Patient.get (delete_patient (assign_doctor_to_patient dbC9 [] 1 5).db 1).2 1 = none ∧
    get_assigned_doctors (delete_patient (assign_doctor_to_patient dbC9 [] 1 5).db 1).2 1 =
      .ok [{ id := 5, email := "d@x", role := .DOCTOR }] ∧
    ([{ id := 5, email := "d@x", role := UserRole.DOCTOR }] : List User) ≠ [] := by decide

/-- C9 (amended): listing assigned patients of a doctor id, or assigned doctors of
a patient id, never fails - the lookup reads only the join table and succeeds for
every id, existing or not - and an id with no join-table rows yields the empty
list. -/
theorem C9_listing_total (db : DB) (i : Nat) :
    (get_assigned_patients db i).statusCode = 200 ∧
    (get_assigned_doctors db i).statusCode = 200 ∧
    (db.patientDoctors.filter (fun r => r.doctor_id == i) = [] →
      get_assigned_patients db i = .ok []) ∧
    (db.patientDoctors.filter (fun r => r.patient_id == i) = [] →
      get_assigned_doctors db i = .ok []) := by
  refine ⟨rfl, rfl, ?_, ?_⟩ <;> intro h <;>
    simp [get_assigned_patients, get_assigned_doctors, h]

/-- C9 witness: the amended listing theorem at a concrete id with no join rows. -/
theorem C9_listing_total_witness :
    List.filter (fun r => r.doctor_id == 3) dbC9.patientDoctors = [] ∧
    get_assigned_patients dbC9 3 = .ok [] ∧
    (get_assigned_patients dbC9 3).statusCode = 200 :=
  ⟨by decide, (C9_listing_total dbC9 3).2.2.1 (by decide), (C9_listing_total dbC9 3).1⟩

/-- C2: an acting identity that is not a DOCTOR row, or has no join row linking it
to the target patient, receives status 404 - never a permission-specific code such
as 403 - from each of the four medical-record operations on that patient. -/
theorem C2_unauthorized_med_ops_404 (db : DB) (uid pid rid : Nat) (m : MedicalRecordIn)
    (h : User.getDoctor db uid = none ∨ PatientDoctor.filterPair db pid uid = []) :
    (get_patient_medical_information db uid pid).statusCode = 404 ∧
    (create_medical_record db uid pid m).1.statusCode = 404 ∧
    (update_medical_record db uid pid rid m).1.statusCode = 404 ∧
    (delete_medical_record db uid pid rid).1.statusCode = 404 :=
  medOps404 db uid pid rid m h

/-- Store for the unauthorized-identity scenario: user 9 has role PATIENT, patient
1 exists, nothing assigned. -/
def dbC2 : DB :=
  { users := [{ id := 9, email := "pat9@x", role := .PATIENT }],
    patients := [{ id := 1, name := "A", gender := "Male", address := "" }],
    patientDoctors := [], medicalRecords := [],
    nextPatientId := 2, nextPairId := 1, nextRecordId := 1 }

/-- C2 witness: the non-doctor identity 9 gets 404 from all four operations. -/
theorem C2_unauthorized_med_ops_404_witness :
    (User.getDoctor dbC2 9 = none ∨ PatientDoctor.filterPair dbC2 1 9 = []) ∧
    ((get_patient_medical_information dbC2 9 1).statusCode = 404 ∧
     (create_medical_record dbC2 9 1 {}).1.statusCode = 404 ∧
     (update_medical_record dbC2 9 1 1 {}).1.statusCode = 404 ∧
     (delete_medical_record dbC2 9 1 1).1.statusCode = 404) :=
  ⟨Or.inl (by decide), C2_unauthorized_med_ops_404 dbC2 9 1 1 {} (Or.inl (by decide))⟩

/-- C3: after a successful unassignment of the (patient, doctor) pair, each of the
four medical-record operations by that doctor on that patient answers 404; the
access check reads the current join table on every call, so the revocation takes
effect immediately. -/
theorem C3_unassign_revokes_record_access (db : DB) (pid did rid : Nat)
    (m : MedicalRecordIn) (msg : String) (db' : DB)
    (h : unassign_doctor_from_patient db pid did = (.ok msg, db')) :
    (get_patient_medical_information db' did pid).statusCode = 404 ∧
    (create_medical_record db' did pid m).1.statusCode = 404 ∧
    (update_medical_record db' did pid rid m).1.statusCode = 404 ∧
    (delete_medical_record db' did pid rid).1.statusCode = 404 := by
  have hf : PatientDoctor.filterPair db' pid did = [] := by
    unfold unassign_doctor_from_patient at h
    cases hc : PatientDoctor.filterPair db pid did with
    | nil =>
      rw [hc] at h
      simp at h
    | cons r t =>
      cases t with
      | nil =>
        rw [hc] at h
        rw [Prod.mk.injEq] at h
        obtain ⟨h1, h2⟩ := h
        subst h2
        unfold PatientDoctor.filterPair
        refine List.filter_eq_nil_iff.mpr ?_
        intro a ha hpa
        have ha' := List.mem_filter.mp ha
        have hmem : a ∈ PatientDoctor.filterPair db pid did := by
          unfold PatientDoctor.filterPair
          exact List.mem_filter.mpr ⟨ha'.1, hpa⟩
        rw [hc] at hmem
        have har : a = r := by simpa using hmem
        subst har
        simp at ha'
      | cons r2 t2 =>
        rw [hc] at h
        simp at h
  exact medOps404 db' did pid rid m (Or.inr hf)

/-- Store state after the successful unassignment of the pair (1, 5) from `dbDup`:
the join row is gone, everything else is untouched. -/
def dbC3After : DB :=
  { users := [{ id := 5, email := "doc@example.com", role := .DOCTOR }],
    patients := [{ id := 1, name := "Alice", gender := "Male", address := "" }],
    patientDoctors := [], medicalRecords := [],
    nextPatientId := 2, nextPairId := 2, nextRecordId := 1 }

/-- C3 witness: unassigning the pair (1, 5) succeeds, and doctor 5 then gets 404
from all four medical-record operations on patient 1. -/
theorem C3_unassign_revokes_record_access_witness :
    unassign_doctor_from_patient dbDup 1 5 =
      (.ok "Doctor unassigned successfully", dbC3After) ∧
    ((get_patient_medical_information dbC3After 5 1).statusCode = 404 ∧
     (create_medical_record dbC3After 5 1 {}).1.statusCode = 404 ∧
     (update_medical_record dbC3After 5 1 1 {}).1.statusCode = 404 ∧
     (delete_medical_record dbC3After 5 1 1).1.statusCode = 404) :=
  ⟨by decide,
   C3_unassign_revokes_record_access dbDup 1 5 1 {} "Doctor unassigned successfully"
     dbC3After (by decide)⟩

/-- C5: on a successful assignment (patient exists, pair not yet assigned, doctor
row exists) the endpoint succeeds; when the registry holds a connection for the
doctor id, exactly one message "New patient assigned from: {doctor email}" is
appended to that connection, and when it holds none the registry is unchanged and
the assignment still succeeds with no error. -/
theorem C5_assignment_notification (db : DB) (reg : Registry) (pid did : Nat)
    (p : Patient) (u : User) (c : Conn)
    (hp : Patient.get db pid = some p)
    (hf : PatientDoctor.filterPair db pid did = [])
    (hu : User.getDoctor db did = some u) :
    (assign_doctor_to_patient db reg pid did).resp =
      .ok { id := db.nextPairId, patient_id := p.id, doctor_id := did } ∧
    (regLookup reg did = some c →
      (assign_doctor_to_patient db reg pid did).reg =
        regSet reg did (c ++ ["New patient assigned from: " ++ u.email])) ∧
    (regLookup reg did = none →
      (assign_doctor_to_patient db reg pid did).reg = reg) := by
  unfold assign_doctor_to_patient
  rw [hp]
  dsimp only
  rw [hf]
  simp only [ne_eq, not_true_eq_false, if_false]
  rw [hu]
  dsimp only
  refine ⟨rfl, ?_, ?_⟩
  · intro hc
    unfold send_notification_to_user
    rw [hc]
  · intro hn
    unfold send_notification_to_user
    rw [hn]

/-- Store for the notification scenario: doctor 7 and patient 2 exist, nothing
assigned. -/
def dbC5 : DB :=
  { users := [{ id := 7, email := "doc7@x", role := .DOCTOR }],
    patients := [{ id := 2, name := "B", gender := "Female", address := "" }],
    patientDoctors := [], medicalRecords := [],
    nextPatientId := 3, nextPairId := 1, nextRecordId := 1 }

/-- C5 witness: with a connection registered for doctor 7, assigning doctor 7 to
patient 2 succeeds and delivers exactly one message to that connection. -/
theorem C5_assignment_notification_witness :
    (assign_doctor_to_patient dbC5 [(7, [])] 2 7).resp =
      .ok { id := 1, patient_id := 2, doctor_id := 7 } ∧
    (regLookup [(7, [])] 7 = some [] →
      (assign_doctor_to_patient dbC5 [(7, [])] 2 7).reg =
        regSet [(7, [])] 7 ([] ++ ["New patient assigned from: " ++ "doc7@x"])) ∧
    (regLookup [(7, [])] 7 = none →
      (assign_doctor_to_patient dbC5 [(7, [])] 2 7).reg = [(7, [])]) :=
  C5_assignment_notification dbC5 [(7, [])] 2 7
    { id := 2, name := "B", gender := "Female", address := "" }
    { id := 7, email := "doc7@x", role := .DOCTOR } []
    (by decide) (by decide) (by decide)

/-- C8: unassignment answers NotFound when no join row exists for the pair; with
exactly one join row present it succeeds with an acknowledgement and deletes
exactly that row, leaving every other table untouched. -/
theorem C8_unassign_contract (db : DB) (pid did : Nat) (row : PatientDoctor) :
    (PatientDoctor.filterPair db pid did = [] →
      unassign_doctor_from_patient db pid did = (.err 404 "They were never assigned", db)) ∧
    (PatientDoctor.filterPair db pid did = [row] →
      (unassign_doctor_from_patient db pid did).1 = .ok "Doctor unassigned successfully" ∧
      (unassign_doctor_from_patient db pid did).2.patientDoctors =
        db.patientDoctors.filter (fun q => q.id != row.id) ∧
      (unassign_doctor_from_patient db pid did).2.patients = db.patients ∧
      (unassign_doctor_from_patient db pid did).2.users = db.users ∧
      (unassign_doctor_from_patient db pid did).2.medicalRecords = db.medicalRecords) := by
  constructor
  · intro h
    unfold unassign_doctor_from_patient
    rw [h]
  · intro h
    unfold unassign_doctor_from_patient
    rw [h]
    exact ⟨rfl, rfl, rfl, rfl, rfl⟩

/-- C8 witness: the contract applied to the store holding exactly the pair (1, 5). -/
theorem C8_unassign_contract_witness :
    PatientDoctor.filterPair dbDup 1 5 = [{ id := 1, patient_id := 1, doctor_id := 5 }] ∧
    ((unassign_doctor_from_patient dbDup 1 5).1 = .ok "Doctor unassigned successfully" ∧
     (unassign_doctor_from_patient dbDup 1 5).2.patientDoctors =
       dbDup.patientDoctors.filter (fun q => q.id != 1) ∧
     (unassign_doctor_from_patient dbDup 1 5).2.patients = dbDup.patients ∧
     (unassign_doctor_from_patient dbDup 1 5).2.users = dbDup.users ∧
     (unassign_doctor_from_patient dbDup 1 5).2.medicalRecords = dbDup.medicalRecords) :=
  ⟨by decide,
   (C8_unassign_contract dbDup 1 5 { id := 1, patient_id := 1, doctor_id := 5 }).2 (by decide)⟩

/-- Patient creation never touches the join table. -/
theorem create_patient_pairs (db : DB) (p : PatientIn) :
    (create_patient db p).2.patientDoctors = db.patientDoctors := by
  unfold create_patient
  cases p.gender with
  | none => rfl
  | some g =>
    dsimp only
    split <;> rfl

/-- Patient update never touches the join table. -/
theorem update_patient_pairs (db : DB) (pid : Nat) (p : PatientIn) :
    (update_patient db pid p).2.patientDoctors = db.patientDoctors := by
  unfold update_patient
  cases Patient.get db pid <;> rfl

/-- Patient deletion never touches the join table (no cascade). -/
theorem delete_patient_pairs (db : DB) (pid : Nat) :
    (delete_patient db pid).2.patientDoctors = db.patientDoctors := by
  unfold delete_patient
  cases Patient.get db pid <;> rfl

/-- Record creation never touches the join table. -/
theorem create_medical_record_pairs (db : DB) (uid pid : Nat) (m : MedicalRecordIn) :
    (create_medical_record db uid pid m).2.patientDoctors = db.patientDoctors := by
  unfold create_medical_record
  cases medCheck db uid pid <;> rfl

/-- Record update never touches the join table. -/
theorem update_medical_record_pairs (db : DB) (uid pid rid : Nat) (m : MedicalRecordIn) :
    (update_medical_record db uid pid rid m).2.patientDoctors = db.patientDoctors := by
  unfold update_medical_record
  cases medCheck db uid pid with
  | denied => rfl
  | multi => rfl
  | passed doctor patient =>
    dsimp only
    cases db.medicalRecords.find? (fun r => r.id == rid && r.patient_id == patient.id) <;> rfl

/-- Record deletion never touches the join table. -/
theorem delete_medical_record_pairs (db : DB) (uid pid rid : Nat) :
    (delete_medical_record db uid pid rid).2.patientDoctors = db.patientDoctors := by
  unfold delete_medical_record
  cases medCheck db uid pid with
  | denied => rfl
  | multi => rfl
  | passed doctor patient =>
    dsimp only
    cases db.medicalRecords.find? (fun r => r.id == rid && r.patient_id == patient.id) <;> rfl

/-- Unassignment only ever removes join rows. -/
theorem unassign_pairs_sublist (db : DB) (pid did : Nat) :
    List.Sublist (unassign_doctor_from_patient db pid did).2.patientDoctors
      db.patientDoctors := by
  unfold unassign_doctor_from_patient
  cases PatientDoctor.filterPair db pid did with
  | nil => exact List.Sublist.refl _
  | cons r t =>
    cases t with
    | nil => exact List.filter_sublist _
    | cons r2 t2 => exact List.Sublist.refl _

/-- Assignment preserves pair uniqueness: it adds a join row only after checking
that no row for the pair exists. -/
theorem pairUnique_assign (db : DB) (reg : Registry) (pid did : Nat)
    (h : pairUnique db) : pairUnique (assign_doctor_to_patient db reg pid did).db := by
  unfold assign_doctor_to_patient
  cases hp : Patient.get db pid with
  | none => exact h
  | some p =>
    dsimp only
    by_cases hf : PatientDoctor.filterPair db pid did = []
    · rw [if_neg (fun hne => hne hf)]
      cases hu : User.getDoctor db did with
      | none => exact h
      | some u =>
        dsimp only
        unfold pairUnique
        dsimp only
        rw [List.pairwise_append]
        refine ⟨h, List.pairwise_singleton _ _, ?_⟩
        intro a ha b hb
        simp only [List.mem_singleton] at hb
        subst hb
        intro hcon
        obtain ⟨h1, h2⟩ := hcon
        have hmem : a ∈ PatientDoctor.filterPair db pid did := by
          unfold PatientDoctor.filterPair
          refine List.mem_filter.mpr ⟨ha, ?_⟩
          simp [h1, h2, Patient.get_id hp]
        rw [hf] at hmem
        exact absurd hmem (List.not_mem_nil a)
    · rw [if_pos hf]
      exact h

/-- C6: every embedded operation preserves the invariant that the join table holds
at most one PatientDoctor row per (patient, doctor) pair; the assignment handler,
the only creator of join rows, refuses to add a second row for an existing pair. -/
theorem C6_pair_uniqueness_invariant (op : Op) (s : Sys) (h : pairUnique s.db) :
    pairUnique (step op s).db := by
  cases op with
  | opCreatePatient p =>
    unfold pairUnique step
    rw [create_patient_pairs]
    exact h
  | opUpdatePatient pid p =>
    unfold pairUnique step
    rw [update_patient_pairs]
    exact h
  | opDeletePatient pid =>
    unfold pairUnique step
    rw [delete_patient_pairs]
    exact h
  | opAssign pid did => exact pairUnique_assign s.db s.reg pid did h
  | opUnassign pid did =>
    exact List.Pairwise.sublist (unassign_pairs_sublist s.db pid did) h
  | opCreateRecord uid pid m =>
    unfold pairUnique step
    rw [create_medical_record_pairs]
    exact h
  | opUpdateRecord uid pid rid m =>
    unfold pairUnique step
    rw [update_medical_record_pairs]
    exact h
  | opDeleteRecord uid pid rid =>
    unfold pairUnique step
    rw [delete_medical_record_pairs]
    exact h

/-- C6 witness: the invariant holds in the concrete store `dbC5` and is preserved
by a concrete assignment step. -/
theorem C6_pair_uniqueness_invariant_witness :
    pairUnique dbC5 ∧ pairUnique (step (Op.opAssign 2 7) { db := dbC5, reg := [] }).db :=
  ⟨List.Pairwise.nil,
   C6_pair_uniqueness_invariant (Op.opAssign 2 7) { db := dbC5, reg := [] } List.Pairwise.nil⟩

/-- Mapping a function that fixes every element changes nothing, even when guarded
by a condition. -/
theorem map_ite_self {α : Type} (l : List α) (c : α → Bool) (f : α → α)
    (hf : ∀ a, f a = a) : l.map (fun a => if c a then f a else a) = l := by
  refine List.map_id'' ?_ l
  intro a
  by_cases h : c a = true
  · rw [if_pos h, hf]
  · rw [if_neg h]

/-- Merging an all-absent patient delta changes nothing. -/
theorem patient_mergeIn_empty (p : Patient) : p.mergeIn { } = p := rfl

/-- Merging an all-absent record delta changes nothing. -/
theorem record_mergeIn_empty (r : MedicalRecord) : r.mergeIn { } = r := rfl

/-- C7: a partial update of an existing Patient or MedicalRecord changes exactly
the fields present in the request, every omitted field keeps its prior value, and
an update with an empty delta returns the entity unchanged and leaves the store
exactly as it was. -/
theorem C7_update_merges_only_given_fields (db : DB) (pid uid rid : Nat) (p : Patient) (d : PatientIn)
    (doc : User) (pat : Patient) (r : MedicalRecord) (m : MedicalRecordIn)
    (hp : Patient.get db pid = some p)
    (hc : medCheck db uid pid = .passed doc pat)
    (hr : db.medicalRecords.find? (fun q => q.id == rid && q.patient_id == pat.id) = some r) :
    (update_patient db pid d).1 =
      .ok { id := p.id, name := d.name.getD p.name, gender := d.gender.getD p.gender,
            address := d.address.getD p.address } ∧
    update_patient db pid { } = (.ok p, db) ∧
    (update_medical_record db uid pid rid m).1 =
      .ok { id := r.id, patient_id := r.patient_id, doctor_id := r.doctor_id,
            diagnosis := m.diagnosis.getD r.diagnosis,
            treatment := m.treatment.getD r.treatment } ∧
    update_medical_record db uid pid rid { } = (.ok r, db) := by
  refine ⟨?_, ?_, ?_, ?_⟩
  · unfold update_patient
    rw [hp]
    rfl
  · unfold update_patient
    rw [hp]
    dsimp only
    rw [Prod.mk.injEq]
    constructor
    · rfl
    · rw [map_ite_self db.patients (fun q => q.id == pid) (fun q => q.mergeIn { })
        patient_mergeIn_empty]
  · unfold update_medical_record
    rw [hc]
    dsimp only
    rw [hr]
    rfl
  · unfold update_medical_record
    rw [hc]
    dsimp only
    rw [hr]
    dsimp only
    rw [Prod.mk.injEq]
    constructor
    · rfl
    · rw [map_ite_self db.medicalRecords
        (fun q => q.id == rid && q.patient_id == pat.id) (fun q => q.mergeIn { })
        record_mergeIn_empty]

/-- Store for the partial-update scenario: doctor 5 assigned to patient 2, one
medical record present. -/
def dbC7 : DB :=
  { users := [{ id := 5, email := "doc@x", role := .DOCTOR }],
    patients := [{ id := 2, name := "Bob", gender := "Male", address := "Main st" }],
    patientDoctors := [{ id := 1, patient_id := 2, doctor_id := 5 }],
    medicalRecords := [{ id := 1, patient_id := 2, doctor_id := 5,
                         diagnosis := "flu", treatment := "rest" }],
    nextPatientId := 3, nextPairId := 2, nextRecordId := 2 }

/-- C7 witness: the partial-update theorem at a concrete store, with a delta that
sets only the name of the patient and only the treatment of the record. -/
theorem C7_update_merges_only_given_fields_witness :
    Patient.get dbC7 2 = some { id := 2, name := "Bob", gender := "Male", address := "Main st" } ∧
    ((update_patient dbC7 2 { name := some "Robert" }).1 =
       .ok { id := 2, name := "Robert", gender := "Male", address := "Main st" } ∧
     update_patient dbC7 2 { } =
       (.ok { id := 2, name := "Bob", gender := "Male", address := "Main st" }, dbC7) ∧
     (update_medical_record dbC7 5 2 1 { treatment := some "sleep" }).1 =
       .ok { id := 1, patient_id := 2, doctor_id := 5, diagnosis := "flu", treatment := "sleep" } ∧
     update_medical_record dbC7 5 2 1 { } =
       (.ok { id := 1, patient_id := 2, doctor_id := 5, diagnosis := "flu", treatment := "rest" },
        dbC7)) :=
  ⟨by decide,
   C7_update_merges_only_given_fields dbC7 2 5 1
     { id := 2, name := "Bob", gender := "Male", address := "Main st" }
     { name := some "Robert" }
     { id := 5, email := "doc@x", role := .DOCTOR }
     { id := 2, name := "Bob", gender := "Male", address := "Main st" }
     { id := 1, patient_id := 2, doctor_id := 5, diagnosis := "flu", treatment := "rest" }
     { treatment := some "sleep" }
     (by decide) (by decide) (by decide)⟩

/-- C10: a handshake with no protocol-negotiation token, or whose token claims
resolve to no existing User row, closes the connection and leaves the registry
unchanged (no entry added); a successful handshake writes the registry entry for
the user id, the effect trace showing the write (`register`) happening before the
`accept`. -/
theorem C10_handshake_registry (db : DB) (reg : Registry)
    (verify_token : String → Option Nat) (tok : String) (uid : Nat) (u : User) :
    websocket_endpoint db reg none verify_token = (reg, [.close]) ∧
    (verify_token tok = none →
      websocket_endpoint db reg (some tok) verify_token = (reg, [.close])) ∧
    (verify_token tok = some uid → db.users.find? (fun x => x.id == uid) = none →
      websocket_endpoint db reg (some tok) verify_token = (reg, [.close])) ∧
    (verify_token tok = some uid → db.users.find? (fun x => x.id == uid) = some u →
      websocket_endpoint db reg (some tok) verify_token =
        (regSet reg u.id [], [.register u.id, .accept])) := by
  refine ⟨rfl, ?_, ?_, ?_⟩
  · intro hv
    unfold websocket_endpoint
    dsimp only
    rw [hv]
    rfl
  · intro hv hf
    unfold websocket_endpoint
    dsimp only
    rw [hv]
    dsimp only [Option.bind]
    rw [hf]
  · intro hv hf
    unfold websocket_endpoint
    dsimp only
    rw [hv]
    dsimp only [Option.bind]
    rw [hf]

/-- Modelled from the spec: a concrete external token validator for the handshake
witness - it accepts exactly the token "tok7", with id claim 7. -/
def wsVerify : String → Option Nat := fun t => if t == "tok7" then some 7 else none

/-- C10 witness: the handshake theorem at a concrete store, registry and token. -/
theorem C10_handshake_registry_witness :
    websocket_endpoint dbC5 [(3, ["m"])] none wsVerify = ([(3, ["m"])], [.close]) ∧
    websocket_endpoint dbC5 [(3, ["m"])] (some "tok7") wsVerify =
      (regSet [(3, ["m"])] 7 [], [.register 7, .accept]) :=
  ⟨(C10_handshake_registry dbC5 [(3, ["m"])] wsVerify "tok7" 7
      { id := 7, email := "doc7@x", role := .DOCTOR }).1,
   (C10_handshake_registry dbC5 [(3, ["m"])] wsVerify "tok7" 7
      { id := 7, email := "doc7@x", role := .DOCTOR }).2.2.2 (by decide) (by decide)⟩
